import Mathlib

/-!
Shallow embedding of the carbon-accounting core of this repository:

* `backend/api/calculations/carbon_calculator.py` - emission factor lookup,
  unit conversion, per-record calculation, period summaries, compliance;
* `backend/api/emission_factors.py` - remote factor refresh and local cache;
* `backend/main.py` (`compute_sensor_emissions`) - sensor activity
  reconciliation.

Modelling conventions: Python floats are exact rationals (`ℚ`), dates and
timestamps are integers (day numbers / epoch seconds, i.e. already parsed by
`_parse_iso`; an unparseable timestamp string is modelled as an absent field),
Python `None` is `Option.none`, and Python dictionaries are insertion-ordered
association lists.  External I/O (HTTP fetches, the on-disk cache, database
query results) is passed in as data.
-/

set_option maxRecDepth 4000

namespace Arise

/-- Association-list lookup; models Python `dict.get` / the `in` test. -/
def alookup {α β : Type} [DecidableEq α] : List (α × β) → α → Option β
  | [], _ => none
  | (k, v) :: rest, k' => if k = k' then some v else alookup rest k'

/-- Python dict assignment `d[k] = v`: overwrite in place, else append. -/
def dictInsert {α β : Type} [DecidableEq α] : List (α × β) → α → β → List (α × β)
  | [], k, v => [(k, v)]
  | (k', v') :: rest, k, v =>
      if k' = k then (k, v) :: rest else (k', v') :: dictInsert rest k v

/-- Python truthiness of an optional float: `None` and `0.0` are falsy. -/
def optFalsy : Option ℚ → Bool
  | none => true
  | some v => decide (v = 0)

/-- Half-to-even integer rounding, as Python `round` on a unit value. -/
def roundHalfEven (x : ℚ) : ℤ :=
  let f := Rat.floor x
  let r := x - (f : ℚ)
  if r < 1/2 then f
  else if 1/2 < r then f + 1
  else if f % 2 = 0 then f else f + 1

/-- Python `round(x, n)`. -/
def roundTo (n : ℕ) (x : ℚ) : ℚ :=
  (roundHalfEven (x * (10 : ℚ) ^ n) : ℚ) / (10 : ℚ) ^ n

/-- ASCII lower-casing of one character.  The strings compared in this code
base are ASCII, for which Python `str.lower` agrees with this map. -/
def lowerChar (c : Char) : Char :=
  if 'A' ≤ c ∧ c ≤ 'Z' then Char.ofNat (c.toNat + 32) else c

/-- Models Python `str.lower` on the ASCII strings this code compares. -/
def lowerStr (s : String) : String := String.mk (s.toList.map lowerChar)

/-- ASCII upper-casing of one character. -/
def upperChar (c : Char) : Char :=
  if 'a' ≤ c ∧ c ≤ 'z' then Char.ofNat (c.toNat - 32) else c

/-- Models Python `str.upper` on the ASCII strings this code compares. -/
def upperStr (s : String) : String := String.mk (s.toList.map upperChar)

/-! ## `carbon_calculator.py`: the emission factor database -/

/-- `EmissionFactorDatabase._load_default_factors`, transcribed verbatim
(`kg CO2e` per unit; `recycling` is a negative factor, a carbon credit). -/
def defaultFactors : List (String × List (String × ℚ)) :=
  [ ("electricity",
      [("SE", 13/1000), ("NO", 18/1000), ("DK", 167/1000), ("FI", 93/1000), ("default", 500/1000)]),
    ("natural_gas", [("default", 203/100)]),
    ("diesel", [("default", 268/100)]),
    ("petrol", [("default", 231/100)]),
    ("heating_oil", [("default", 296/100)]),
    ("lpg", [("default", 300/100)]),
    ("transport_freight",
      [("truck", 97/1000), ("rail", 22/1000), ("ship", 11/1000), ("air", 602/1000),
       ("default", 97/1000)]),
    ("transport_business_travel",
      [("car", 171/1000), ("bus", 89/1000), ("train", 41/1000), ("flight_domestic", 255/1000),
       ("flight_international", 195/1000), ("default", 171/1000)]),
    ("waste_disposal",
      [("landfill", 500/1000), ("incineration", 20/1000), ("recycling", -150/1000),
       ("composting", 10/1000), ("default", 500/1000)]),
    ("water_consumption", [("default", 344/1000)]),
    ("refrigerants",
      [("R-134a", 1430), ("R-410A", 2088), ("R-32", 675), ("default", 1430)]) ]

/-- The country-code / "default" tail of the lookup in
`EmissionFactorDatabase.get_emission_factor`. -/
def countryOrDefault (factors : List (String × ℚ)) (country : String) : ℚ :=
  match alookup factors country with
  | some f => f
  | none =>
      match alookup factors "default" with
      | some f => f
      | none => 1

/-- `EmissionFactorDatabase.get_emission_factor`.  The Python guard
`if sub_type and sub_type in factors` uses truthiness, so an empty-string
sub-type is skipped just like `None`. -/
def get_emission_factor (table : List (String × List (String × ℚ)))
    (activity country : String) (sub : Option String) : ℚ :=
  match alookup table activity with
  | none => 1
  | some factors =>
      match sub with
      | some st =>
          if st ≠ "" then
            match alookup factors st with
            | some f => f
            | none => countryOrDefault factors country
          else countryOrDefault factors country
      | none => countryOrDefault factors country

/-! ## `carbon_calculator.py`: unit conversion -/

/-- `CarbonCalculator._convert_units`.  The Python code lower-cases the unit
and compares it against literal alias lists; the `activity_type` parameter is
accepted but unused, exactly as in the source. -/
def convert_units (amount : ℚ) (unit : String) (_activityType : String) : ℚ :=
  let u := lowerStr unit
  if u = "kwh" ∨ u = "kilowatt-hour" then amount
  else if u = "mwh" ∨ u = "megawatt-hour" then amount * 1000
  else if u = "gwh" ∨ u = "gigawatt-hour" then amount * 1000000
  else if u = "m3" ∨ u = "m³" ∨ u = "cubic meter" then amount
  else if u = "l" ∨ u = "liter" ∨ u = "litre" then amount / 1000
  else if u = "kg" ∨ u = "kilogram" then amount
  else if u = "t" ∨ u = "ton" ∨ u = "tonne" then amount * 1000
  else if u = "km" ∨ u = "kilometer" then amount
  else if u = "m" ∨ u = "meter" then amount / 1000
  else amount

/-- The lower-cased alias strings recognized by `convert_units`. -/
def unitAliases : List String :=
  ["kwh", "kilowatt-hour", "mwh", "megawatt-hour", "gwh", "gigawatt-hour",
   "m3", "m³", "cubic meter", "l", "liter", "litre", "kg", "kilogram",
   "t", "ton", "tonne", "km", "kilometer", "m", "meter"]

/-- Strips spaces, periods and hyphens from a unit string. -/
def stripUnitPunct (s : String) : String :=
  String.mk (s.toList.filter fun c => !(c = ' ' ∨ c = '.' ∨ c = '-'))

/-- Modelled from the spec: unit alias recognition "tolerant of
punctuation/spacing" - the unit is lower-cased AND stripped of spaces,
periods and hyphens before being compared against the likewise-stripped
aliases.  This definition follows the spec's words, not the source; it is
used only to state claim C5 as written, for comparison with
`convert_units`. -/
def convert_units_tolerant (amount : ℚ) (unit : String) : ℚ :=
  let u := stripUnitPunct (lowerStr unit)
  if u = "kwh" ∨ u = "kilowatthour" then amount
  else if u = "mwh" ∨ u = "megawatthour" then amount * 1000
  else if u = "gwh" ∨ u = "gigawatthour" then amount * 1000000
  else if u = "m3" ∨ u = "m³" ∨ u = "cubicmeter" then amount
  else if u = "l" ∨ u = "liter" ∨ u = "litre" then amount / 1000
  else if u = "kg" ∨ u = "kilogram" then amount
  else if u = "t" ∨ u = "ton" ∨ u = "tonne" then amount * 1000
  else if u = "km" ∨ u = "kilometer" then amount
  else if u = "m" ∨ u = "meter" then amount / 1000
  else amount

/-! ## `models/emission_data.py` and the calculator -/

/-- `EmissionScope` (GHG Protocol scopes). -/
inductive EmissionScope where
  | scope_1
  | scope_2
  | scope_3
deriving DecidableEq

/-- `ComplianceStatus`. -/
inductive ComplianceStatus where
  | compliant
  | warning
  | non_compliant
  | pending_review
deriving DecidableEq

/-- `EmissionDataPoint`, restricted to the fields the calculator reads.
`activity_type` is the activity's string value (the model uses
`use_enum_values`), the date is a day number. -/
@[ext]
structure EmissionDataPoint where
  date : ℤ := 0
  company_id : String := ""
  activity_type : String := ""
  scope : EmissionScope := .scope_1
  amount : ℚ := 0
  unit : String := ""
  emission_factor : Option ℚ := none
  co2_emissions : Option ℚ := none
  country_code : String := "SE"
  verified : Bool := false
deriving DecidableEq

/-- `CarbonCalculator.calculate_emissions`:
`converted_amount * emission_factor`. -/
def calculate_emissions (table : List (String × List (String × ℚ)))
    (activity : String) (amount : ℚ) (unit country : String) (sub : Option String) : ℚ :=
  convert_units amount unit activity * get_emission_factor table activity country sub

/-- `CarbonCalculator.calculate_for_data_point`: fills `emission_factor`
and then `co2_emissions`, each guarded by Python truthiness
(`if not data_point.emission_factor`, `if not data_point.co2_emissions`). -/
def calculate_for_data_point (table : List (String × List (String × ℚ)))
    (dp : EmissionDataPoint) : EmissionDataPoint :=
  let f := get_emission_factor table dp.activity_type dp.country_code none
  let dp1 :=
    if optFalsy dp.emission_factor then { dp with emission_factor := some f }
    else dp
  let e := calculate_emissions table dp1.activity_type dp1.amount dp1.unit dp1.country_code none
  if optFalsy dp1.co2_emissions then { dp1 with co2_emissions := some e }
  else dp1

/-- Compliance thresholds (`CarbonCalculator._load_thresholds`). -/
structure Thresholds where
  scope_1_warning : ℚ
  scope_2_warning : ℚ
  scope_3_warning : ℚ
deriving DecidableEq

/-- The built-in defaults, in kg CO2e per year. -/
def default_thresholds : Thresholds :=
  { scope_1_warning := 100000, scope_2_warning := 50000, scope_3_warning := 200000 }

/-- `CarbonCalculator._check_compliance_status`. -/
def check_compliance_status (t : Thresholds) (s1 s2 s3 : ℚ) : ComplianceStatus :=
  if s1 > t.scope_1_warning ∨ s2 > t.scope_2_warning ∨ s3 > t.scope_3_warning then
    ComplianceStatus.warning
  else ComplianceStatus.compliant

/-- Sum of `f` over a list; models Python `sum(f(x) for x in l)`. -/
def sumBy {α : Type} (f : α → ℚ) (l : List α) : ℚ := (l.map f).sum

/-- The `co2_emissions` value of a record whose field is set. -/
def co2OrZero (dp : EmissionDataPoint) : ℚ := dp.co2_emissions.getD 0

/-- One scope total of `generate_summary`:
`sum(dp.co2_emissions for dp in filtered if dp.scope == s and dp.co2_emissions)`. -/
def scope_total (s : EmissionScope) (l : List EmissionDataPoint) : ℚ :=
  sumBy co2OrZero
    (l.filter fun dp => decide (dp.scope = s) && !optFalsy dp.co2_emissions)

/-- One step of building `emissions_by_activity`:
`d[activity] = d.get(activity, 0) + co2`. -/
def upsertAdd : List (String × ℚ) → String → ℚ → List (String × ℚ)
  | [], k, v => [(k, v)]
  | (k', v') :: rest, k, v =>
      if k' = k then (k', v' + v) :: rest else (k', v') :: upsertAdd rest k v

/-- The `emissions_by_activity` aggregation loop of `generate_summary`
(records with a falsy `co2_emissions` are skipped). -/
def emissions_by_activity_map (l : List EmissionDataPoint) : List (String × ℚ) :=
  l.foldl
    (fun m dp =>
      if optFalsy dp.co2_emissions then m
      else upsertAdd m dp.activity_type (co2OrZero dp))
    []

/-- `EmissionSummary`, restricted to the fields `generate_summary` fills. -/
structure EmissionSummary where
  company_id : String
  period_start : ℤ
  period_end : ℤ
  scope_1_total : ℚ
  scope_2_total : ℚ
  scope_3_total : ℚ
  total_emissions : ℚ
  emissions_by_activity : List (String × ℚ)
  previous_period_total : Option ℚ
  change_percentage : Option ℚ
  compliance_status : ComplianceStatus
  data_points_count : ℕ
  verified_data_percentage : ℚ
deriving DecidableEq

/-- The record filter of `generate_summary`: same company and
`period_start <= dp.date <= period_end`, both ends inclusive. -/
def summaryFilter (cid : String) (ps pe : ℤ) (dp : EmissionDataPoint) : Bool :=
  decide (dp.company_id = cid) && decide (ps ≤ dp.date) && decide (dp.date ≤ pe)

/-- The tail of `generate_summary`, applied to the already filtered and
calculated records (`calculate_bulk` mutates the filtered list in place, so
every later aggregate reads the calculated records). -/
def mkSummaryFromCalced (thr : Thresholds) (cid : String) (ps pe : ℤ)
    (prev : Option ℚ) (calced : List EmissionDataPoint) : EmissionSummary :=
  { company_id := cid
    period_start := ps
    period_end := pe
    scope_1_total := scope_total .scope_1 calced
    scope_2_total := scope_total .scope_2 calced
    scope_3_total := scope_total .scope_3 calced
    total_emissions :=
      scope_total .scope_1 calced + scope_total .scope_2 calced +
        scope_total .scope_3 calced
    emissions_by_activity := emissions_by_activity_map calced
    previous_period_total := prev
    change_percentage :=
      match prev with
      | some p =>
          -- Python: `if previous_period_total and previous_period_total > 0`
          if 0 < p then
            some ((scope_total .scope_1 calced + scope_total .scope_2 calced +
              scope_total .scope_3 calced - p) / p * 100)
          else none
      | none => none
    compliance_status :=
      check_compliance_status thr (scope_total .scope_1 calced)
        (scope_total .scope_2 calced) (scope_total .scope_3 calced)
    data_points_count := calced.length
    verified_data_percentage :=
      if calced = [] then 0
      else ((calced.filter fun dp => dp.verified).length : ℚ) / (calced.length : ℚ) * 100 }

/-- `CarbonCalculator.generate_summary`: filter to company and period,
calculate unset emissions, then aggregate. -/
def generate_summary (table : List (String × List (String × ℚ))) (thr : Thresholds)
    (dps : List EmissionDataPoint) (cid : String) (ps pe : ℤ)
    (prev : Option ℚ) : EmissionSummary :=
  mkSummaryFromCalced thr cid ps pe prev
    ((dps.filter (summaryFilter cid ps pe)).map (calculate_for_data_point table))

/-- Sum of the values of an `emissions_by_activity` map. -/
def sumValues (m : List (String × ℚ)) : ℚ := (m.map Prod.snd).sum

/-! ## `emission_factors.py`: remote refresh and cache -/

/-- `normalize_unit`: lower-case and drop spaces and periods (the leading
`strip()` is subsumed by the space removal for space-only whitespace). -/
def normalize_unit (u : String) : String :=
  String.mk ((lowerStr u).toList.filter fun c => !(c = ' ' ∨ c = '.'))

/-- `load_cached_factors`, applied to the raw on-disk mapping: a dict
comprehension that normalizes every key (later duplicates overwrite). -/
def load_cached_factors (diskCache : List (String × ℚ)) : List (String × ℚ) :=
  diskCache.foldl (fun acc kv => dictInsert acc (normalize_unit kv.1) kv.2) []

/-- The merge step of `refresh_cached_factors`:
`for k, v in mapping.items(): if k not in combined: combined[k] = v`
(first seen wins). -/
def mergeFirstSeen (combined m : List (String × ℚ)) : List (String × ℚ) :=
  m.foldl (fun acc kv => if (alookup acc kv.1).isSome then acc else acc ++ [kv]) combined

/-- `refresh_cached_factors`, with its external effects passed as data:
`diskCache` is the existing on-disk cache and `ember` is the mapping returned
by `load_electricity_factors_from_api()` (an HTTP call; empty when every
fetch fails).  Note that the source's loop `for src in sources:` never uses
`src`: every iteration calls `load_electricity_factors_from_api()`, so the
same `ember` mapping is merged once per configured source.  The final
`return load_cached_factors()` re-reads the cache, which the branch above it
overwrote with `combined` whenever `combined` is non-empty. -/
def refresh_cached_factors (diskCache : List (String × ℚ)) (sources : List String)
    (ember : List (String × ℚ)) : List (String × ℚ) :=
  if sources = [] then load_cached_factors diskCache
  else
    let combined := sources.foldl (fun acc _src => mergeFirstSeen acc ember) []
    if combined = [] then load_cached_factors diskCache
    else load_cached_factors combined

/-- Modelled from the spec (and the function's own docstring): "fetch each
configured source ... parse into a ... mapping, and write to a local cache;
on refresh, first-seen-wins across multiple sources".  `fetchUrl src` is the
parsed mapping obtained from the configured source URL `src` (empty on
fetch/parse failure).  This definition follows the claim's words; it is used
only to state claim C6, for comparison with `refresh_cached_factors`. -/
def refresh_per_claim (diskCache : List (String × ℚ)) (sources : List String)
    (fetchUrl : String → List (String × ℚ)) : List (String × ℚ) :=
  if sources = [] then load_cached_factors diskCache
  else
    let combined := sources.foldl (fun acc src => mergeFirstSeen acc (fetchUrl src)) []
    if combined = [] then load_cached_factors diskCache
    else load_cached_factors combined

/-! ## `main.py`: sensor emission reconciliation -/

/-- A row of the `sensors` table (raw optional fields; identifiers are
modelled as strings). -/
structure Sensor where
  id : Option String := none
  device_id : Option String := none
  power_kW : Option ℚ := none
  emission_factor : Option ℚ := none
deriving DecidableEq

/-- The per-sensor metadata object built in `compute_sensor_emissions`
(`float(s.get('power_kW') or 0)` maps both `None` and `0` to `0`). -/
structure SensorMeta where
  id : Option String
  device_id : Option String
  power_kW : ℚ
  emission_factor : ℚ
deriving DecidableEq

/-- Builds the metadata for one sensor row. -/
def mkMeta (s : Sensor) : SensorMeta :=
  { id := s.id, device_id := s.device_id,
    power_kW := s.power_kW.getD 0, emission_factor := s.emission_factor.getD 0 }

/-- The `sensor_map` construction: every known identifier of a sensor (its
canonical `id` and its external `device_id`) maps to the same metadata. -/
def sensorMapGo (m : List (String × SensorMeta)) : List Sensor → List (String × SensorMeta)
  | [] => m
  | s :: rest =>
      let m1 := match s.id with
        | some sid => dictInsert m sid (mkMeta s)
        | none => m
      let m2 := match s.device_id with
        | some d => dictInsert m1 d (mkMeta s)
        | none => m1
      sensorMapGo m2 rest

/-- The identifier-to-metadata map of `compute_sensor_emissions`. -/
def sensor_map (sensors : List Sensor) : List (String × SensorMeta) :=
  sensorMapGo [] sensors

/-- A `sensors_activity` row, with the optional field aliases the source
reads.  Timestamps are already-parsed epoch seconds (an unparseable string is
modelled as an absent field). -/
structure Activity where
  device_id : Option String := none
  sensor_id : Option String := none
  device : Option String := none
  deviceId : Option String := none
  energy_kwh : Option ℚ := none
  kwh : Option ℚ := none
  energy : Option ℚ := none
  hours : Option ℚ := none
  session_start : Option ℤ := none
  session_end : Option ℤ := none
  start : Option ℤ := none
  «end» : Option ℤ := none
  timestamp : Option ℤ := none
  time : Option ℤ := none
  created_at : Option ℤ := none
  state : Option String := none
deriving DecidableEq

/-- Python `a or b` on optional strings (an empty string is falsy; the last
operand is returned as-is when all are falsy). -/
def pyOrStr (a b : Option String) : Option String :=
  match a with
  | some s => if s = "" then b else some s
  | none => b

/-- `a.get('device_id') or a.get('sensor_id') or a.get('device') or
a.get('deviceId')`. -/
def getDid (a : Activity) : Option String :=
  pyOrStr (pyOrStr (pyOrStr a.device_id a.sensor_id) a.device) a.deviceId

/-- `a.get('session_start') or a.get('start') or a.get('timestamp')`
(timestamps are modelled pre-parsed, and a present parsed timestamp is always
truthy). -/
def sessStart (a : Activity) : Option ℤ :=
  match a.session_start with
  | some v => some v
  | none =>
      match a.start with
      | some v => some v
      | none => a.timestamp

/-- `a.get('session_end') or a.get('end')`. -/
def sessEnd (a : Activity) : Option ℤ :=
  match a.session_end with
  | some v => some v
  | none => a.«end»

/-- The first present direct-energy field, in source order:
`energy_kwh`, `kwh`, `energy` (`is not None` - presence, not truthiness). -/
def explicitVal (a : Activity) : Option ℚ :=
  match a.energy_kwh with
  | some v => some v
  | none =>
      match a.kwh with
      | some v => some v
      | none => a.energy

/-- `(a.get('state') or '').upper() if a.get('state') else None`. -/
def eventState (a : Activity) : Option String :=
  match a.state with
  | some s => if s = "" then none else some (upperStr s)
  | none => none

/-- `a.get('timestamp') or a.get('time') or a.get('created_at')`. -/
def eventTs (a : Activity) : Option ℤ :=
  match a.timestamp with
  | some v => some v
  | none =>
      match a.time with
      | some v => some v
      | none => a.created_at

/-- The three per-sensor row buckets of `compute_sensor_emissions`. -/
structure Classified where
  explicitActs : List Activity
  durationActs : List Activity
  eventActs : List Activity
deriving DecidableEq

/-- The classification loop: explicit energy first, then duration
(`hours`, or a start/end pair), then ON/OFF state events. -/
def classifyGo (c : Classified) : List Activity → Classified
  | [] => c
  | a :: rest =>
      if (explicitVal a).isSome then
        classifyGo { c with explicitActs := c.explicitActs ++ [a] } rest
      else if a.hours.isSome then
        classifyGo { c with durationActs := c.durationActs ++ [a] } rest
      else if (sessStart a).isSome && (sessEnd a).isSome then
        classifyGo { c with durationActs := c.durationActs ++ [a] } rest
      else
        match eventState a, eventTs a with
        | some st, some _ =>
            if st = "ON" ∨ st = "OFF" then
              classifyGo { c with eventActs := c.eventActs ++ [a] } rest
            else classifyGo c rest
        | _, _ => classifyGo c rest

/-- Classification of a sensor's rows. -/
def classify (acts : List Activity) : Classified := classifyGo ⟨[], [], []⟩ acts

/-- Method A: sum the explicit energy reports. -/
def sumExplicit (acts : List Activity) : ℚ :=
  acts.foldl
    (fun s a => match explicitVal a with | some e => s + e | none => s) 0

/-- The hours credited to one duration row: the explicit `hours` field if
present, otherwise the session interval clamped to the query window
(`None` when the pair is not a forward interval). -/
def durationHours (w1 w2 : ℤ) (a : Activity) : Option ℚ :=
  match a.hours with
  | some h => some h
  | none =>
      match sessStart a, sessEnd a with
      | some s, some e =>
          if s < e then
            if max s w1 < min e w2 then
              some (((min e w2 - max s w1 : ℤ) : ℚ) / 3600)
            else some 0
          else none
      | _, _ => none

/-- Method B loop: accumulate (energy, cycles, on_hours); energy is added
only when the rated power is positive. -/
def methodBGo (power : ℚ) (w1 w2 : ℤ) (st : ℚ × ℕ × ℚ) : List Activity → ℚ × ℕ × ℚ
  | [] => st
  | a :: rest =>
      match durationHours w1 w2 a with
      | none => methodBGo power w1 w2 st rest
      | some h =>
          methodBGo power w1 w2
            (st.1 + (if 0 < power then h * power else 0), st.2.1 + 1, st.2.2 + h) rest

/-- Method B: duration rows times rated power. -/
def methodB (power : ℚ) (w1 w2 : ℤ) (acts : List Activity) : ℚ × ℕ × ℚ :=
  methodBGo power w1 w2 (0, 0, 0) acts

/-- One parsed ON/OFF event. -/
structure SensorEvent where
  ts : ℤ
  state : String
deriving DecidableEq

/-- Event extraction for method C (state re-read and upper-cased as in the
source). -/
def evList : List Activity → List SensorEvent
  | [] => []
  | a :: rest =>
      match eventTs a with
      | some t =>
          { ts := t,
            state := match a.state with | some s => upperStr s | none => "" } :: evList rest
      | none => evList rest

/-- Stable insertion into a timestamp-sorted event list. -/
def insertEvent (ev : SensorEvent) : List SensorEvent → List SensorEvent
  | [] => [ev]
  | e :: rest => if ev.ts ≤ e.ts then ev :: e :: rest else e :: insertEvent ev rest

/-- `events.sort(key=lambda x: x['ts'])` - a stable sort by timestamp. -/
def sortEvents : List SensorEvent → List SensorEvent
  | [] => []
  | e :: rest => insertEvent e (sortEvents rest)

/-- The ON/OFF scan of method C: accumulated on-seconds, the open run start,
and the completed cycle count.  Events outside the window are skipped; each
completed run is clamped to the window. -/
def scanEventsGo (w1 w2 : ℤ) (st : ℤ × Option ℤ × ℕ) : List SensorEvent → ℤ × Option ℤ × ℕ
  | [] => st
  | ev :: rest =>
      if ev.ts < w1 ∨ w2 < ev.ts then scanEventsGo w1 w2 st rest
      else if ev.state = "ON" then
        match st.2.1 with
        | none => scanEventsGo w1 w2 (st.1, some ev.ts, st.2.2) rest
        | some _ => scanEventsGo w1 w2 st rest
      else if ev.state = "OFF" then
        match st.2.1 with
        | some t0 =>
            scanEventsGo w1 w2
              (st.1 + (if max t0 w1 < min ev.ts w2 then min ev.ts w2 - max t0 w1 else 0),
                none, st.2.2 + 1) rest
        | none => scanEventsGo w1 w2 st rest
      else scanEventsGo w1 w2 st rest

/-- Method C: ON/OFF reconstruction; a run still open at the end of the
period is capped at the window end. -/
def methodC (power : ℚ) (w1 w2 : ℤ) (acts : List Activity) : ℚ × ℕ × ℚ :=
  let evs := sortEvents (evList acts)
  if evs ≠ [] then
    let sc := scanEventsGo w1 w2 (0, none, 0) evs
    let secs2 :=
      match sc.2.1 with
      | some t0 => if max t0 w1 < w2 then sc.1 + (w2 - max t0 w1) else sc.1
      | none => sc.1
    let evh : ℚ := (secs2 : ℚ) / 3600
    if 0 < evh then (evh * power, sc.2.2, evh) else (0, 0, 0)
  else (0, 0, 0)

/-- The per-sensor energy computation (energy_kwh, cycles, on_hours), with
the strict method preference Explicit > Duration > Events of the source. -/
def sensorRaw (meta : SensorMeta) (acts : List Activity) (w1 w2 : ℤ) : ℚ × ℕ × ℚ :=
  let c := classify acts
  if c.explicitActs ≠ [] then
    (sumExplicit c.explicitActs, c.explicitActs.length, 0)
  else if c.durationActs ≠ [] then
    methodB meta.power_kW w1 w2 c.durationActs
  else if c.eventActs ≠ [] ∧ 0 < meta.power_kW then
    methodC meta.power_kW w1 w2 c.eventActs
  else (0, 0, 0)

/-- One `SensorSummary` entry. -/
structure SensorSummary where
  sensor_id : Option String
  device_id : Option String
  energy_kwh : ℚ
  emissions_kg : ℚ
  cycles : ℕ
  on_hours : ℚ
deriving DecidableEq

/-- Builds one summary entry (fields rounded as in the source: 6 decimals
for energy/emissions, 4 for hours). -/
def processSensor (meta : SensorMeta) (acts : List Activity) (w1 w2 : ℤ) : SensorSummary :=
  let r := sensorRaw meta acts w1 w2
  { sensor_id := meta.id
    device_id := meta.device_id
    energy_kwh := roundTo 6 r.1
    emissions_kg := roundTo 6 (r.1 * meta.emission_factor)
    cycles := r.2.1
    on_hours := roundTo 4 r.2.2 }

/-- `by_canonical_id.setdefault(canonical_id, []).append(a)`. -/
def groupInsert (g : List (Option String × List Activity)) (k : Option String)
    (a : Activity) : List (Option String × List Activity) :=
  match g with
  | [] => [(k, [a])]
  | (k', l) :: rest =>
      if k' = k then (k', l ++ [a]) :: rest else (k', l) :: groupInsert rest k a

/-- The grouping loop of `compute_sensor_emissions`: each activity row is
resolved through the identifier map and grouped by the canonical sensor id;
rows without an identifier or for an unknown sensor are dropped. -/
def byCanonicalGo (smap : List (String × SensorMeta))
    (g : List (Option String × List Activity)) :
    List Activity → List (Option String × List Activity)
  | [] => g
  | a :: rest =>
      match getDid a with
      | none => byCanonicalGo smap g rest
      | some did =>
          match alookup smap did with
          | none => byCanonicalGo smap g rest
          | some meta => byCanonicalGo smap (groupInsert g meta.id a) rest

/-- The groups of `compute_sensor_emissions`, keyed by canonical id. -/
def by_canonical_id (smap : List (String × SensorMeta)) (activities : List Activity) :
    List (Option String × List Activity) :=
  byCanonicalGo smap [] activities

/-- The final per-group loop: accumulate the (unrounded) total and append
one summary per group whose canonical id resolves in the sensor map. -/
def computeGo (smap : List (String × SensorMeta)) (w1 w2 : ℤ)
    (acc : ℚ × List SensorSummary) :
    List (Option String × List Activity) → ℚ × List SensorSummary
  | [] => acc
  | g :: rest =>
      match g.1 with
      | none => computeGo smap w1 w2 acc rest
      | some cid =>
          match alookup smap cid with
          | none => computeGo smap w1 w2 acc rest
          | some meta =>
              computeGo smap w1 w2
                (acc.1 + (sensorRaw meta g.2 w1 w2).1 * meta.emission_factor,
                  acc.2 ++ [processSensor meta g.2 w1 w2]) rest

/-- `compute_sensor_emissions`, from the materialized sensor rows and
window-overlapping activity rows (the database query and ISO parsing are the
external collaborator's; `w1`/`w2` are the parsed window bounds). -/
def compute_sensor_emissions (sensors : List Sensor) (activities : List Activity)
    (w1 w2 : ℤ) : ℚ × List SensorSummary :=
  if sensors = [] then (0, [])
  else
    let smap := sensor_map sensors
    let r := computeGo smap w1 w2 (0, []) (by_canonical_id smap activities)
    (roundTo 6 r.1, r.2)

/-- Record with `co2_emissions` explicitly set to `0.0`: the Python guard
`if not data_point.co2_emissions` treats it as unset. -/
def cxRecord1 : EmissionDataPoint :=
  { date := 0, company_id := "c1", activity_type := "electricity", scope := .scope_2,
    amount := 1000, unit := "kwh", emission_factor := some (13/1000),
    co2_emissions := some 0, country_code := "SE", verified := false }

/-- Record whose `co2_emissions` is set but whose `emission_factor` is not. -/
def cxRecord2 : EmissionDataPoint :=
  { cxRecord1 with emission_factor := none, co2_emissions := some 13 }

/-- A sensor used by the concrete reconciliation witnesses. -/
def dedupSensor : Sensor :=
  { id := some "s1", device_id := some "d1", power_kW := some 2,
    emission_factor := some (1/2) }

/-- The metadata `sensor_map` builds for `dedupSensor`. -/
def dedupMeta : SensorMeta :=
  { id := some "s1", device_id := some "d1", power_kW := 2, emission_factor := 1/2 }

/-- An explicit-energy row keyed by the canonical sensor id. -/
def dedupRow1 : Activity := { device_id := some "s1", energy_kwh := some 10 }

/-- An explicit-energy row keyed by the external device id. -/
def dedupRow2 : Activity := { device_id := some "d1", energy_kwh := some 4 }

/-- An ON event at epoch second 3600. -/
def evOnRow : Activity :=
  { device_id := some "s1", state := some "on", timestamp := some 3600 }

/-- An OFF event three hours after `evOnRow`. -/
def evOffRow : Activity :=
  { device_id := some "s1", state := some "off", timestamp := some 14400 }

/-- A sensor of rated power 1 kW and emission factor 1. -/
def clampMeta : SensorMeta :=
  { id := some "s1", device_id := some "d1", power_kW := 1, emission_factor := 1 }

/-- A duration row with an explicit hour count AND a session interval
[-2 h, +3 h] around the window start. -/
def clampRow : Activity :=
  { hours := some 5, session_start := some (-7200), session_end := some 10800 }

/-! ## Helper lemmas -/

theorem alookup_mem {α β : Type} [DecidableEq α] {l : List (α × β)} {k : α} {v : β}
    (h : alookup l k = some v) : (k, v) ∈ l := by
  induction l with
  | nil => simp [alookup] at h
  | cons p rest ih =>
      obtain ⟨pk, pv⟩ := p
      rw [alookup] at h
      by_cases hk : pk = k
      · subst hk
        rw [if_pos rfl] at h
        cases h
        exact List.mem_cons_self _ _
      · rw [if_neg hk] at h
        exact List.mem_cons_of_mem _ (ih h)

/-- No activity map of the built-in table has an empty-string key. -/
theorem defaultFactors_no_empty_key :
    ∀ p ∈ defaultFactors, alookup p.2 "" = none := by decide

/-! ## C1: factor lookup order -/

/-- C1: for every activity present in the factor table, `get_emission_factor`
returns the sub-type entry whenever the sub-type matches a key of that
activity's map (regardless of country); otherwise the country-code entry
whenever the country matches a key; otherwise the activity's "default"
entry; and for an activity type not in the table it returns the global
fallback 1.0. -/
theorem getFactor_lookup_order (activity country : String) (sub : Option String) :
    (∀ m, alookup defaultFactors activity = some m →
      (∀ st f, sub = some st → alookup m st = some f →
        get_emission_factor defaultFactors activity country sub = f) ∧
      ((∀ st, sub = some st → alookup m st = none) →
        (∀ f, alookup m country = some f →
          get_emission_factor defaultFactors activity country sub = f) ∧
        (alookup m country = none →
          ∀ f, alookup m "default" = some f →
            get_emission_factor defaultFactors activity country sub = f))) ∧
    (alookup defaultFactors activity = none →
      get_emission_factor defaultFactors activity country sub = 1) := by
  constructor
  · intro m hm
    constructor
    · intro st f hsub hst
      subst hsub
      have hne : st ≠ "" := by
        intro h0
        subst h0
        have hw := defaultFactors_no_empty_key ⟨activity, m⟩ (alookup_mem hm)
        simp only [hw] at hst
        exact Option.noConfusion hst
      simp [get_emission_factor, hm, hne, hst]
    · intro hnost
      constructor
      · intro f hc
        cases sub with
        | none => simp [get_emission_factor, hm, countryOrDefault, hc]
        | some st =>
            have hst := hnost st rfl
            by_cases hne : st = ""
            · subst hne
              simp [get_emission_factor, hm, countryOrDefault, hc]
            · simp [get_emission_factor, hm, hne, hst, countryOrDefault, hc]
      · intro hcn f hd
        cases sub with
        | none => simp [get_emission_factor, hm, countryOrDefault, hcn, hd]
        | some st =>
            have hst := hnost st rfl
            by_cases hne : st = ""
            · subst hne
              simp [get_emission_factor, hm, countryOrDefault, hcn, hd]
            · simp [get_emission_factor, hm, hne, hst, countryOrDefault, hcn, hd]
  · intro hnone
    simp [get_emission_factor, hnone]

/-- C1 witness: the `truck` sub-type of `transport_freight` is returned
regardless of the country. -/
theorem getFactor_lookup_order_witness :
    get_emission_factor defaultFactors "transport_freight" "SE" (some "truck") = 97/1000 := by
  have h := (getFactor_lookup_order "transport_freight" "SE" (some "truck")).1
    [("truck", 97/1000), ("rail", 22/1000), ("ship", 11/1000), ("air", 602/1000), ("default", 97/1000)]
    (by with_unfolding_all decide)
  exact h.1 "truck" (97/1000) rfl (by with_unfolding_all decide)

/-! ## C4: compliance thresholds -/

/-- C4: with the default thresholds the compliance status is WARNING iff
some scope total strictly exceeds its threshold (100000 / 50000 / 200000 kg
CO2e), COMPLIANT otherwise; totals exactly at the thresholds are
COMPLIANT. -/
theorem compliance_warning_iff (s1 s2 s3 : ℚ) :
    (check_compliance_status default_thresholds s1 s2 s3 = ComplianceStatus.warning ↔
      (100000 < s1 ∨ 50000 < s2 ∨ 200000 < s3)) ∧
    (¬(100000 < s1 ∨ 50000 < s2 ∨ 200000 < s3) →
      check_compliance_status default_thresholds s1 s2 s3 = ComplianceStatus.compliant) ∧
    check_compliance_status default_thresholds 100000 50000 200000 =
      ComplianceStatus.compliant := by
  refine ⟨?_, ?_, by with_unfolding_all decide⟩
  · unfold check_compliance_status default_thresholds
    split_ifs with h
    · simpa using h
    · simp [h]
  · intro h
    unfold check_compliance_status default_thresholds
    split_ifs with h2
    · exact absurd h2 h
    · rfl

/-- C4 witness: a scope-1 total exactly at 100000 is COMPLIANT, one just
above is WARNING. -/
theorem compliance_warning_iff_witness :
    check_compliance_status default_thresholds 100000 50000 200000 =
      ComplianceStatus.compliant ∧
    check_compliance_status default_thresholds 100001 0 0 = ComplianceStatus.warning := by
  constructor
  · exact (compliance_warning_iff 100000 50000 200000).2.1 (by norm_num)
  · exact (compliance_warning_iff 100001 0 0).1.mpr (Or.inl (by norm_num))

/-! ## C5: unit normalization -/

/-- C5 counterexample: the source's unit matcher is case-insensitive but NOT
tolerant of punctuation/spacing - the unit "mwh." is not recognized as MWh
(it is passed through unchanged), while the tolerant matcher described by
the spec scales it by 1000. -/
theorem convert_units_counterexample :
    convert_units 1 "mwh." "electricity" = 1 ∧
    convert_units_tolerant 1 "mwh." = 1000 ∧
    convert_units 1 "mwh." "electricity" ≠ convert_units_tolerant 1 "mwh." := by
  refine ⟨by with_unfolding_all decide, by with_unfolding_all decide,
    by with_unfolding_all decide⟩

/-- C5 (amended): `_convert_units` recognizes the documented aliases
case-insensitively by exact match after lower-casing (punctuation and extra
spacing are NOT stripped), scales by the documented factors (MWh x1000,
GWh x1e6, liter /1000, tonne x1000, meter /1000), and returns the amount
unchanged for any unrecognized unit; the spec's three round-trip examples
hold. -/
theorem convert_units_amended (a : ℚ) (u t : String) :
    (lowerStr u ∉ unitAliases → convert_units a u t = a) ∧
    (lowerStr u = "kwh" ∨ lowerStr u = "kilowatt-hour" → convert_units a u t = a) ∧
    (lowerStr u = "mwh" ∨ lowerStr u = "megawatt-hour" → convert_units a u t = a * 1000) ∧
    (lowerStr u = "gwh" ∨ lowerStr u = "gigawatt-hour" →
      convert_units a u t = a * 1000000) ∧
    (lowerStr u = "m3" ∨ lowerStr u = "m³" ∨ lowerStr u = "cubic meter" →
      convert_units a u t = a) ∧
    (lowerStr u = "l" ∨ lowerStr u = "liter" ∨ lowerStr u = "litre" →
      convert_units a u t = a / 1000) ∧
    (lowerStr u = "kg" ∨ lowerStr u = "kilogram" → convert_units a u t = a) ∧
    (lowerStr u = "t" ∨ lowerStr u = "ton" ∨ lowerStr u = "tonne" →
      convert_units a u t = a * 1000) ∧
    (lowerStr u = "km" ∨ lowerStr u = "kilometer" → convert_units a u t = a) ∧
    (lowerStr u = "m" ∨ lowerStr u = "meter" → convert_units a u t = a / 1000) ∧
    convert_units 1000 "l" t = 1 ∧ convert_units 1 "MWh" t = 1000 ∧
    convert_units 5 "unknown_unit" t = 5 := by
  refine ⟨?_, ?_, ?_, ?_, ?_, ?_, ?_, ?_, ?_, ?_, by with_unfolding_all rfl,
    by with_unfolding_all rfl, by with_unfolding_all rfl⟩
  · intro h
    simp only [unitAliases, List.mem_cons, List.not_mem_nil, or_false, not_or] at h
    obtain ⟨h1, h2, h3, h4, h5, h6, h7, h8, h9, h10, h11, h12, h13, h14, h15, h16,
      h17, h18, h19, h20, h21⟩ := h
    simp [convert_units, h1, h2, h3, h4, h5, h6, h7, h8, h9, h10, h11, h12, h13,
      h14, h15, h16, h17, h18, h19, h20, h21]
  · intro h
    rcases h with h | h <;> simp [convert_units, h]
  · intro h
    rcases h with h | h <;> simp [convert_units, h]
  · intro h
    rcases h with h | h <;> simp [convert_units, h]
  · intro h
    rcases h with h | h | h <;> simp [convert_units, h]
  · intro h
    rcases h with h | h | h <;> simp [convert_units, h]
  · intro h
    rcases h with h | h <;> simp [convert_units, h]
  · intro h
    rcases h with h | h | h <;> simp [convert_units, h]
  · intro h
    rcases h with h | h <;> simp [convert_units, h]
  · intro h
    rcases h with h | h <;> simp [convert_units, h]

/-- C5 amended witness: the scaling families applied at concrete units. -/
theorem convert_units_amended_witness :
    convert_units 7 "MWh" "electricity" = 7000 ∧
    convert_units 3 "Tonne" "lpg" = 3000 ∧
    convert_units 4 "weird" "other" = 4 := by
  refine ⟨?_, ?_, ?_⟩
  · have h := (convert_units_amended 7 "MWh" "electricity").2.2.1
      (Or.inl (by with_unfolding_all decide))
    rw [h]; norm_num
  · have h := (convert_units_amended 3 "Tonne" "lpg").2.2.2.2.2.2.2.1
      (Or.inr (Or.inr (by with_unfolding_all decide)))
    rw [h]; norm_num
  · exact (convert_units_amended 4 "weird" "other").1 (by with_unfolding_all decide)

/-! ## C6: remote factor refresh -/

/-- C6: `refresh_cached_factors` never fetches the configured source URLs:
the loop `for src in sources:` ignores `src` and calls
`load_electricity_factors_from_api()` instead (so the result is invariant
under changing the URL text).  With one configured source serving a
parseable mapping while the Ember API returns nothing, the code returns the
existing cache unchanged, whereas the claimed behavior (and the function's
own docstring, "Fetch emission factors from configured sources") requires
the fetched mapping to be merged and cached. -/
theorem refresh_ignores_source_urls :
    (∀ diskCache ember url1 url2,
      refresh_cached_factors diskCache [url1] ember =
        refresh_cached_factors diskCache [url2] ember) ∧
    refresh_cached_factors [("kg", 1)] ["http://example.org/factors.json"] [] =
      [("kg", 1)] ∧
    refresh_per_claim [("kg", 1)] ["http://example.org/factors.json"]
      (fun _ => [("kwh", 1/2)]) = [("kwh", 1/2)] := by
  refine ⟨fun diskCache ember url1 url2 => rfl, by with_unfolding_all decide,
    by with_unfolding_all decide⟩

/-! ## C2: calculate_for_data_point -/

/-- An optional value that is neither absent nor zero is truthy. -/
theorem optFalsy_eq_false {o : Option ℚ} (h1 : o ≠ none) (h2 : o ≠ some 0) :
    optFalsy o = false := by
  cases o with
  | none => exact absurd rfl h1
  | some v =>
      simp only [optFalsy, decide_eq_false_iff_not]
      intro hv
      exact h2 (by rw [hv])

/-- `calculate_for_data_point` only writes the two emission fields. -/
theorem cfdp_preserves (table : List (String × List (String × ℚ)))
    (dp : EmissionDataPoint) :
    (calculate_for_data_point table dp).date = dp.date ∧
    (calculate_for_data_point table dp).company_id = dp.company_id ∧
    (calculate_for_data_point table dp).activity_type = dp.activity_type ∧
    (calculate_for_data_point table dp).scope = dp.scope ∧
    (calculate_for_data_point table dp).amount = dp.amount ∧
    (calculate_for_data_point table dp).unit = dp.unit ∧
    (calculate_for_data_point table dp).country_code = dp.country_code ∧
    (calculate_for_data_point table dp).verified = dp.verified := by
  by_cases h1 : optFalsy dp.emission_factor <;>
    by_cases h2 : optFalsy dp.co2_emissions <;>
    simp [calculate_for_data_point, h1, h2]

/-- The `emission_factor` written by `calculate_for_data_point`. -/
theorem cfdp_ef (table : List (String × List (String × ℚ))) (dp : EmissionDataPoint) :
    (calculate_for_data_point table dp).emission_factor =
      (if optFalsy dp.emission_factor then
        some (get_emission_factor table dp.activity_type dp.country_code none)
      else dp.emission_factor) := by
  by_cases h1 : optFalsy dp.emission_factor <;>
    by_cases h2 : optFalsy dp.co2_emissions <;>
    simp [calculate_for_data_point, h1, h2]

/-- The `co2_emissions` written by `calculate_for_data_point`. -/
theorem cfdp_co2 (table : List (String × List (String × ℚ))) (dp : EmissionDataPoint) :
    (calculate_for_data_point table dp).co2_emissions =
      (if optFalsy dp.co2_emissions then
        some (calculate_emissions table dp.activity_type dp.amount dp.unit
          dp.country_code none)
      else dp.co2_emissions) := by
  by_cases h1 : optFalsy dp.emission_factor <;>
    by_cases h2 : optFalsy dp.co2_emissions <;>
    simp [calculate_for_data_point, h1, h2]

/-- C2 counterexample: a record whose `co2_emissions` field is already set
is NOT always left unchanged.  `cxRecord1` has `co2_emissions` set (to 0.0)
and the call overwrites it with the recomputed value 13; `cxRecord2` has
`co2_emissions` set (to 13) and the call still fills `emission_factor`. -/
theorem calc_record_counterexample :
    (cxRecord1.co2_emissions ≠ none ∧
      (calculate_for_data_point defaultFactors cxRecord1).co2_emissions ≠
        cxRecord1.co2_emissions) ∧
    (cxRecord2.co2_emissions ≠ none ∧
      (calculate_for_data_point defaultFactors cxRecord2).emission_factor ≠
        cxRecord2.emission_factor) := by
  with_unfolding_all decide

/-- C2 (amended): `calculate_for_data_point` fills `emission_factor` and
`co2_emissions` independently, each only when that field is unset or equal
to 0 (Python truthiness treats 0.0 as unset); a record with both fields set
to non-zero values is returned unchanged, and applying the function twice
always yields exactly the same record as applying it once (the second call
is a no-op). -/
theorem calc_record_amended (table : List (String × List (String × ℚ)))
    (dp : EmissionDataPoint) :
    (dp.emission_factor ≠ none → dp.emission_factor ≠ some 0 →
      dp.co2_emissions ≠ none → dp.co2_emissions ≠ some 0 →
      calculate_for_data_point table dp = dp) ∧
    calculate_for_data_point table (calculate_for_data_point table dp) =
      calculate_for_data_point table dp := by
  constructor
  · intro h1 h2 h3 h4
    simp [calculate_for_data_point, optFalsy_eq_false h1 h2, optFalsy_eq_false h3 h4]
  · obtain ⟨pd, pc, pa, psc, pam, pu, pcc, pv⟩ :=
      cfdp_preserves table dp
    have hq := cfdp_preserves table (calculate_for_data_point table dp)
    apply EmissionDataPoint.ext
    · exact hq.1
    · exact hq.2.1
    · exact hq.2.2.1
    · exact hq.2.2.2.1
    · exact hq.2.2.2.2.1
    · exact hq.2.2.2.2.2.1
    · by_cases h1 : optFalsy dp.emission_factor <;>
        simp [cfdp_ef, pa, pcc, h1]
    · by_cases h2 : optFalsy dp.co2_emissions <;>
        simp [cfdp_co2, pa, pam, pu, pcc, h2]
    · exact hq.2.2.2.2.2.2.1
    · exact hq.2.2.2.2.2.2.2

/-- C2 amended witness: a record with both fields set non-zero is unchanged,
and the instantiated second call is a no-op. -/
theorem calc_record_amended_witness :
    calculate_for_data_point defaultFactors
        { cxRecord1 with emission_factor := some (13/1000), co2_emissions := some 13 } =
      { cxRecord1 with emission_factor := some (13/1000), co2_emissions := some 13 } :=
  (calc_record_amended defaultFactors _).1 (by with_unfolding_all decide)
    (by with_unfolding_all decide) (by with_unfolding_all decide)
    (by with_unfolding_all decide)

/-! ## C3: summary filtering and the total -/

/-- C3: `generate_summary` considers exactly the records of the given
company whose date lies in the inclusive period (its result on any record
list equals its result on the filtered sub-list, and the data point count is
the filtered length), and `total_emissions` is exactly
`scope_1_total + scope_2_total + scope_3_total`. -/
theorem summary_filter_and_total (table : List (String × List (String × ℚ)))
    (thr : Thresholds) (dps : List EmissionDataPoint) (cid : String) (ps pe : ℤ)
    (prev : Option ℚ) :
    generate_summary table thr dps cid ps pe prev =
      generate_summary table thr (dps.filter (summaryFilter cid ps pe)) cid ps pe prev ∧
    (generate_summary table thr dps cid ps pe prev).total_emissions =
      (generate_summary table thr dps cid ps pe prev).scope_1_total +
        (generate_summary table thr dps cid ps pe prev).scope_2_total +
        (generate_summary table thr dps cid ps pe prev).scope_3_total ∧
    (generate_summary table thr dps cid ps pe prev).data_points_count =
      (dps.filter (summaryFilter cid ps pe)).length := by
  refine ⟨?_, rfl, ?_⟩
  · unfold generate_summary
    rw [List.filter_filter]
    simp
  · unfold generate_summary mkSummaryFromCalced
    simp

/-! ## C10: activity breakdown sums to the total -/

/-- Adding into the activity map adds to its value sum. -/
theorem sumValues_upsertAdd (m : List (String × ℚ)) (k : String) (v : ℚ) :
    sumValues (upsertAdd m k v) = sumValues m + v := by
  induction m with
  | nil => simp [upsertAdd, sumValues]
  | cons p rest ih =>
      obtain ⟨pk, pv⟩ := p
      by_cases hk : pk = k
      · subst hk
        simp [upsertAdd, sumValues]
        ring
      · simp [upsertAdd, hk, sumValues] at ih ⊢
        rw [ih]
        ring

/-- The value sum of the activity aggregation equals the sum of the truthy
emissions. -/
theorem sumValues_eba (l : List EmissionDataPoint) :
    sumValues (emissions_by_activity_map l) =
      sumBy co2OrZero (l.filter fun dp => !optFalsy dp.co2_emissions) := by
  suffices h : ∀ m : List (String × ℚ),
      sumValues (l.foldl
        (fun m dp =>
          if optFalsy dp.co2_emissions then m
          else upsertAdd m dp.activity_type (co2OrZero dp)) m) =
        sumValues m + sumBy co2OrZero (l.filter fun dp => !optFalsy dp.co2_emissions) by
    have := h []
    simpa [emissions_by_activity_map, sumValues] using this
  induction l with
  | nil => intro m; simp [sumBy]
  | cons dp rest ih =>
      intro m
      by_cases h : optFalsy dp.co2_emissions
      · simp only [List.foldl_cons, h, if_true, List.filter_cons]
        simp [h, ih]
      · simp only [List.foldl_cons, h, if_false, List.filter_cons]
        simp [h, ih, sumValues_upsertAdd, sumBy]
        ring

/-- Every truthy record lands in exactly one scope bucket. -/
theorem scope_split (l : List EmissionDataPoint) :
    sumBy co2OrZero (l.filter fun dp => !optFalsy dp.co2_emissions) =
      scope_total .scope_1 l + scope_total .scope_2 l + scope_total .scope_3 l := by
  induction l with
  | nil => simp [scope_total, sumBy]
  | cons dp rest ih =>
      by_cases h : optFalsy dp.co2_emissions
      · simpa [sumBy, List.filter_cons, h, scope_total] using ih
      · cases hs : dp.scope <;>
          simp [sumBy, List.filter_cons, h, hs, scope_total] <;>
          simp [sumBy, scope_total] at ih <;>
          linarith [ih]

/-- C10: in every summary produced by `generate_summary`, the sum of the
values of the `emissions_by_activity` map equals `total_emissions` exactly
(every counted record contributes to exactly one scope bucket and exactly
one activity bucket). -/
theorem activity_sum_eq_total (table : List (String × List (String × ℚ)))
    (thr : Thresholds) (dps : List EmissionDataPoint) (cid : String) (ps pe : ℤ)
    (prev : Option ℚ) :
    sumValues ((generate_summary table thr dps cid ps pe prev).emissions_by_activity) =
      (generate_summary table thr dps cid ps pe prev).total_emissions := by
  show sumValues (emissions_by_activity_map _) = _
  rw [sumValues_eba, scope_split]
  rfl

/-! ## C8: explicit-energy precedence -/

/-- The explicit bucket of the classification is exactly the rows carrying a
direct energy field, in order. -/
theorem classifyGo_explicit (acts : List Activity) :
    ∀ c, (classifyGo c acts).explicitActs =
      c.explicitActs ++ acts.filter (fun a => (explicitVal a).isSome) := by
  induction acts with
  | nil => intro c; simp [classifyGo]
  | cons a rest ih =>
      intro c
      by_cases h1 : (explicitVal a).isSome
      · simp [classifyGo, h1, ih, List.filter_cons]
      · by_cases h2 : a.hours.isSome
        · simp [classifyGo, h1, h2, ih, List.filter_cons]
        · by_cases h3 : (sessStart a).isSome && (sessEnd a).isSome
          · simp [classifyGo, h1, h2, h3, ih, List.filter_cons]
          · cases he1 : eventState a with
            | none => simp [classifyGo, h1, h2, h3, he1, ih, List.filter_cons]
            | some st =>
                cases he2 : eventTs a with
                | none => simp [classifyGo, h1, h2, h3, he1, he2, ih, List.filter_cons]
                | some ts =>
                    by_cases h4 : st = "ON" ∨ st = "OFF" <;>
                      simp [classifyGo, h1, h2, h3, he1, he2, h4, ih, List.filter_cons]

/-- Classifying a list of explicit-energy rows puts them all in the
explicit bucket and leaves the other buckets untouched. -/
theorem classifyGo_all_explicit :
    ∀ (acts : List Activity), (∀ a ∈ acts, (explicitVal a).isSome = true) →
      ∀ c, classifyGo c acts = { c with explicitActs := c.explicitActs ++ acts }
  | [], _, c => by simp [classifyGo]
  | a :: rest, hall, c => by
      have h1 : (explicitVal a).isSome := hall a (List.mem_cons_self a rest)
      have ih := classifyGo_all_explicit rest
        (fun b hb => hall b (List.mem_cons_of_mem a hb))
      simp [classifyGo, h1, ih]

/-- C8: for a sensor with at least one row carrying an explicit energy field
(`energy_kwh`/`kwh`/`energy`), the reconciler computes that sensor's energy
as the sum of exactly those explicit values, ignoring every duration and
ON/OFF event row for that sensor (the result equals the result on the
explicit rows alone); the summary fields are the rounded sum and the rounded
product with the sensor's emission factor. -/
theorem explicit_energy_precedence (meta : SensorMeta) (acts : List Activity)
    (w1 w2 : ℤ)
    (h : acts.filter (fun a => (explicitVal a).isSome) ≠ []) :
    sensorRaw meta acts w1 w2 =
      (sumExplicit (acts.filter fun a => (explicitVal a).isSome),
        (acts.filter fun a => (explicitVal a).isSome).length, 0) ∧
    sensorRaw meta acts w1 w2 =
      sensorRaw meta (acts.filter fun a => (explicitVal a).isSome) w1 w2 ∧
    (processSensor meta acts w1 w2).energy_kwh =
      roundTo 6 (sumExplicit (acts.filter fun a => (explicitVal a).isSome)) ∧
    (processSensor meta acts w1 w2).emissions_kg =
      roundTo 6 (sumExplicit (acts.filter fun a => (explicitVal a).isSome) *
        meta.emission_factor) := by
  have hex : (classify acts).explicitActs =
      acts.filter fun a => (explicitVal a).isSome := by
    simpa using classifyGo_explicit acts ⟨[], [], []⟩
  have hall : ∀ a ∈ acts.filter (fun a => (explicitVal a).isSome),
      (explicitVal a).isSome = true := by
    intro a ha
    exact (List.mem_filter.mp ha).2
  have hcl : classify (acts.filter fun a => (explicitVal a).isSome) =
      ⟨acts.filter fun a => (explicitVal a).isSome, [], []⟩ := by
    simpa [classify] using classifyGo_all_explicit _ hall ⟨[], [], []⟩
  have h1 : sensorRaw meta acts w1 w2 =
      (sumExplicit (acts.filter fun a => (explicitVal a).isSome),
        (acts.filter fun a => (explicitVal a).isSome).length, 0) := by
    simp only [sensorRaw]
    rw [hex]
    simp [h]
  have h2 : sensorRaw meta (acts.filter fun a => (explicitVal a).isSome) w1 w2 =
      (sumExplicit (acts.filter fun a => (explicitVal a).isSome),
        (acts.filter fun a => (explicitVal a).isSome).length, 0) := by
    simp only [sensorRaw]
    rw [hcl]
    simp [h]
  refine ⟨h1, h1.trans h2.symm, ?_, ?_⟩
  · simp only [processSensor, h1]
  · simp only [processSensor, h1]

/-- C8 witness: the spec's end-to-end example - power 2 kW, factor 0.5, one
row `{energy_kwh: 10}` and one ON/OFF event pair spanning 3 hours give
energy 10 kWh and emissions 5 kg, the event rows being ignored. -/
theorem explicit_energy_precedence_witness :
    (processSensor dedupMeta [dedupRow1, evOnRow, evOffRow] 0 86400).energy_kwh = 10 ∧
    (processSensor dedupMeta [dedupRow1, evOnRow, evOffRow] 0 86400).emissions_kg = 5 := by
  have h := explicit_energy_precedence dedupMeta [dedupRow1, evOnRow, evOffRow] 0 86400
    (by with_unfolding_all decide)
  constructor
  · rw [h.2.2.1]
    with_unfolding_all decide
  · rw [h.2.2.2]
    with_unfolding_all decide

/-! ## C9: duration clamping -/

/-- C9 counterexample: a duration row carrying an explicit hour count is NOT
clamped.  `clampRow` has `hours = 5` and a session interval [-7200, 10800]
whose intersection with the window [0, 86400] is 3 hours, yet the reconciler
credits the full 5 hours (energy 5 kWh at 1 kW), exceeding the claimed
clamped value. -/
theorem duration_clamp_counterexample :
    sensorRaw clampMeta [clampRow] 0 86400 = (5, 1, 5) ∧
    ((min (10800 : ℤ) 86400 - max (-7200 : ℤ) 0 : ℤ) : ℚ) / 3600 = 3 ∧
    ¬ ((5 : ℚ) ≤ 3) := by
  refine ⟨by with_unfolding_all decide, by with_unfolding_all decide,
    by with_unfolding_all decide⟩

/-- C9 (amended): a duration row whose hours are derived from a session
timestamp pair is clamped to the intersection of the row's interval with the
query window before being multiplied by the rated power; a row carrying an
explicit hour count is credited its stated hours without any clamping.  In
particular a timestamp-pair session starting before the window and ending
inside it contributes only the in-window fraction of its hours. -/
theorem duration_clamp_amended (w1 w2 : ℤ) (a : Activity) :
    (∀ h, a.hours = some h → durationHours w1 w2 a = some h) ∧
    (∀ s e, a.hours = none → sessStart a = some s → sessEnd a = some e → s < e →
      durationHours w1 w2 a =
        some (if max s w1 < min e w2 then
          ((min e w2 - max s w1 : ℤ) : ℚ) / 3600 else 0)) ∧
    (∀ s e, a.hours = none → sessStart a = some s → sessEnd a = some e →
      s < w1 → w1 ≤ e → e ≤ w2 →
      durationHours w1 w2 a = some (((e - w1 : ℤ) : ℚ) / 3600)) ∧
    (∀ hq power, durationHours w1 w2 a = some hq → 0 < power →
      methodB power w1 w2 [a] = (hq * power, 1, hq)) := by
  refine ⟨?_, ?_, ?_, ?_⟩
  · intro h hh
    simp [durationHours, hh]
  · intro s e hh hs he hlt
    simp only [durationHours, hh, hs, he, if_pos hlt]
    split_ifs <;> rfl
  · intro s e hh hs he h1 h2 h3
    have hse : s < e := lt_of_lt_of_le h1 h2
    simp only [durationHours, hh, hs, he, if_pos hse,
      max_eq_right (le_of_lt h1), min_eq_left h3]
    rcases lt_or_eq_of_le h2 with hlt | heq
    · rw [if_pos hlt]
    · rw [if_neg (by rw [← heq]; exact lt_irrefl w1)]
      rw [← heq]
      norm_num
  · intro hq power hdur hpow
    simp [methodB, methodBGo, hdur, hpow]

/-- C9 amended witness: a timestamp-pair session [-3600, 3600] against the
window [0, 86400] is credited exactly its one in-window hour, and that hour
times a rated power of 2 kW gives 2 kWh. -/
theorem duration_clamp_amended_witness :
    durationHours 0 86400
        { session_start := some (-3600), session_end := some 3600 } = some 1 ∧
    methodB 2 0 86400
        [{ session_start := some (-3600), session_end := some 3600 }] = (2, 1, 1) := by
  have h := duration_clamp_amended 0 86400
    { session_start := some (-3600), session_end := some 3600 }
  have h3 := h.2.2.1 (-3600) 3600 rfl rfl rfl (by norm_num) (by norm_num) (by norm_num)
  have h1 : durationHours 0 86400
      { session_start := some (-3600), session_end := some 3600 } = some 1 := by
    rw [h3]
    norm_num
  refine ⟨h1, ?_⟩
  have h4 := h.2.2.2 1 2 h1 (by norm_num)
  rw [h4]
  norm_num

/-! ## C7: sensor identity resolution and dedup -/

/-- Lookup after a group insert: the inserted key maps to its old rows plus
the new one; every other key is untouched. -/
theorem alookup_groupInsert (g : List (Option String × List Activity))
    (k k' : Option String) (a : Activity) :
    alookup (groupInsert g k a) k' =
      if k = k' then some (((alookup g k).getD []) ++ [a]) else alookup g k' := by
  induction g with
  | nil => by_cases h : k = k' <;> simp [groupInsert, alookup, h]
  | cons p rest ih =>
      obtain ⟨pk, pl⟩ := p
      by_cases h1 : pk = k
      · subst h1
        by_cases h2 : pk = k' <;> simp [groupInsert, alookup, h2]
      · by_cases h2 : pk = k' <;> by_cases h3 : k = k' <;>
          simp_all [groupInsert, alookup, ih]

/-- The keys after a group insert. -/
theorem groupInsert_keys (g : List (Option String × List Activity))
    (k : Option String) (a : Activity) :
    (groupInsert g k a).map Prod.fst =
      if (alookup g k).isSome then g.map Prod.fst else g.map Prod.fst ++ [k] := by
  induction g with
  | nil => simp [groupInsert, alookup]
  | cons p rest ih =>
      obtain ⟨pk, pl⟩ := p
      by_cases h1 : pk = k
      · subst h1
        simp [groupInsert, alookup]
      · by_cases h2 : (alookup rest k).isSome <;>
          simp [groupInsert, alookup, h1, h2, ih]

/-- A key is absent from an association list iff its lookup fails. -/
theorem alookup_eq_none {α β : Type} [DecidableEq α] (l : List (α × β)) (k : α) :
    alookup l k = none ↔ k ∉ l.map Prod.fst := by
  induction l with
  | nil => simp [alookup]
  | cons p rest ih =>
      obtain ⟨pk, pv⟩ := p
      by_cases h : pk = k
      · subst h
        simp [alookup]
      · simp only [alookup, if_neg h, List.map_cons, List.mem_cons, not_or, ih]
        constructor
        · intro hn
          exact ⟨fun heq => h heq.symm, hn⟩
        · intro hn
          exact hn.2

/-- The grouping loop never removes a row from a group. -/
theorem byCanonicalGo_preserve (smap : List (String × SensorMeta))
    (acts : List Activity) :
    ∀ g k l a, alookup g k = some l → a ∈ l →
      ∃ l', alookup (byCanonicalGo smap g acts) k = some l' ∧ a ∈ l' := by
  induction acts with
  | nil => intro g k l a h ha; exact ⟨l, h, ha⟩
  | cons b rest ih =>
      intro g k l a h ha
      cases hd : getDid b with
      | none =>
          simp only [byCanonicalGo, hd]
          exact ih g k l a h ha
      | some did =>
          cases hm : alookup smap did with
          | none =>
              simp only [byCanonicalGo, hd, hm]
              exact ih g k l a h ha
          | some meta =>
              simp only [byCanonicalGo, hd, hm]
              by_cases hk : meta.id = k
              · refine ih (groupInsert g meta.id b) k (l ++ [b]) a ?_
                  (List.mem_append_left _ ha)
                rw [alookup_groupInsert, if_pos hk, hk, h]
                rfl
              · refine ih (groupInsert g meta.id b) k l a ?_ ha
                rw [alookup_groupInsert, if_neg hk]
                exact h

/-- Every activity row that resolves through the identifier map lands in
the group keyed by the canonical id of its sensor. -/
theorem byCanonicalGo_mem (smap : List (String × SensorMeta))
    (acts : List Activity) :
    ∀ g a did meta, a ∈ acts → getDid a = some did → alookup smap did = some meta →
      ∃ l, alookup (byCanonicalGo smap g acts) meta.id = some l ∧ a ∈ l := by
  induction acts with
  | nil => intro g a did meta ha; cases ha
  | cons b rest ih =>
      intro g a did meta ha hd hm
      rcases List.mem_cons.mp ha with rfl | hmem
      · simp only [byCanonicalGo, hd, hm]
        refine byCanonicalGo_preserve smap rest (groupInsert g meta.id a) meta.id
          ((alookup g meta.id).getD [] ++ [a]) a ?_ (by simp)
        rw [alookup_groupInsert, if_pos rfl]
      · cases hd2 : getDid b with
        | none =>
            simp only [byCanonicalGo, hd2]
            exact ih g a did meta hmem hd hm
        | some did2 =>
            cases hm2 : alookup smap did2 with
            | none =>
                simp only [byCanonicalGo, hd2, hm2]
                exact ih g a did meta hmem hd hm
            | some meta2 =>
                simp only [byCanonicalGo, hd2, hm2]
                exact ih _ a did meta hmem hd hm

/-- The grouping loop keeps the group keys distinct. -/
theorem byCanonicalGo_nodup (smap : List (String × SensorMeta))
    (acts : List Activity) :
    ∀ g, (g.map Prod.fst).Nodup → ((byCanonicalGo smap g acts).map Prod.fst).Nodup := by
  induction acts with
  | nil => intro g h; exact h
  | cons b rest ih =>
      intro g h
      cases hd : getDid b with
      | none =>
          simp only [byCanonicalGo, hd]
          exact ih g h
      | some did =>
          cases hm : alookup smap did with
          | none =>
              simp only [byCanonicalGo, hd, hm]
              exact ih g h
          | some meta =>
              simp only [byCanonicalGo, hd, hm]
              refine ih _ ?_
              rw [groupInsert_keys]
              by_cases hs : (alookup g meta.id).isSome
              · rw [if_pos hs]; exact h
              · rw [if_neg hs]
                have hnotin : meta.id ∉ g.map Prod.fst := by
                  rw [← alookup_eq_none]
                  exact Option.not_isSome_iff_eq_none.mp hs
                simp [List.nodup_append, h, hnotin]

/-- Every key produced by the grouping loop is the canonical id of some
resolvable sensor. -/
theorem byCanonicalGo_goodkeys (smap : List (String × SensorMeta))
    (acts : List Activity) :
    ∀ g, (∀ k ∈ g.map Prod.fst, ∃ q m', alookup smap q = some m' ∧ m'.id = k) →
      ∀ k ∈ (byCanonicalGo smap g acts).map Prod.fst,
        ∃ q m', alookup smap q = some m' ∧ m'.id = k := by
  induction acts with
  | nil => intro g h; exact h
  | cons b rest ih =>
      intro g h
      cases hd : getDid b with
      | none =>
          simp only [byCanonicalGo, hd]
          exact ih g h
      | some did =>
          cases hm : alookup smap did with
          | none =>
              simp only [byCanonicalGo, hd, hm]
              exact ih g h
          | some meta =>
              simp only [byCanonicalGo, hd, hm]
              refine ih _ ?_
              intro k hk
              rw [groupInsert_keys] at hk
              by_cases hs : (alookup g meta.id).isSome
              · rw [if_pos hs] at hk
                exact h k hk
              · rw [if_neg hs] at hk
                rcases List.mem_append.mp hk with hk' | hk'
                · exact h k hk'
                · have hk2 : k = meta.id := by simpa using hk'
                  exact ⟨did, meta, hm, hk2.symm⟩

/-- The summaries accumulated by the final loop. -/
theorem computeGo_snd (smap : List (String × SensorMeta)) (w1 w2 : ℤ)
    (gs : List (Option String × List Activity)) :
    ∀ acc, (computeGo smap w1 w2 acc gs).2 =
      acc.2 ++ gs.filterMap (fun g =>
        match g.1 with
        | none => none
        | some c =>
            match alookup smap c with
            | none => none
            | some meta => some (processSensor meta g.2 w1 w2)) := by
  induction gs with
  | nil => intro acc; simp [computeGo]
  | cons g rest ih =>
      intro acc
      obtain ⟨k, gl⟩ := g
      cases k with
      | none => simpa [computeGo, List.filterMap_cons] using ih acc
      | some c =>
          cases hm : alookup smap c with
          | none => simpa [computeGo, hm, List.filterMap_cons] using ih acc
          | some meta =>
              simp [computeGo, hm, List.filterMap_cons, ih]

/-- No group keyed off the canonical id contributes a summary entry with
that sensor id (given self-consistent identifier resolution). -/
theorem summaries_filter_nil (smap : List (String × SensorMeta)) (w1 w2 : ℤ)
    (cid : String)
    (hsane : ∀ q q' m', alookup smap q = some m' → m'.id = some q' →
      alookup smap q' = some m') :
    ∀ gs : List (Option String × List Activity),
      (∀ k ∈ gs.map Prod.fst, k ≠ some cid) →
      (∀ k ∈ gs.map Prod.fst, ∃ q m', alookup smap q = some m' ∧ m'.id = k) →
      ((gs.filterMap (fun g =>
          match g.1 with
          | none => none
          | some c =>
              match alookup smap c with
              | none => none
              | some meta => some (processSensor meta g.2 w1 w2))).filter
        (fun su => decide (su.sensor_id = some cid))) = [] := by
  intro gs
  induction gs with
  | nil => intro _ _; simp
  | cons g rest ih =>
      intro hne hgood
      obtain ⟨k, gl⟩ := g
      have hne1 : k ≠ some cid := hne k (by simp)
      have ihr := ih (fun k' hk' => hne k' (by simp [hk']))
        (fun k' hk' => hgood k' (by simp [hk']))
      cases k with
      | none => simpa [List.filterMap_cons] using ihr
      | some c =>
          obtain ⟨q, m', hq, hid⟩ := hgood (some c) (by simp)
          have hc : alookup smap c = some m' := hsane q c m' hq hid
          have hcc : ¬ ((processSensor m' gl w1 w2).sensor_id = some cid) := by
            simpa [processSensor, hid] using hne1
          simp only [List.filterMap_cons]
          rw [hc]
          simp [List.filter_cons, hcc, ihr]

/-- With distinct group keys, self-consistent resolution and a group for the
canonical id, the summary list contains exactly one entry for that id. -/
theorem summaries_filter_unique (smap : List (String × SensorMeta)) (w1 w2 : ℤ)
    (cid : String) (meta : SensorMeta)
    (hcid : alookup smap cid = some meta) (hmid : meta.id = some cid)
    (hsane : ∀ q q' m', alookup smap q = some m' → m'.id = some q' →
      alookup smap q' = some m') :
    ∀ gs : List (Option String × List Activity), (gs.map Prod.fst).Nodup →
      (∀ k ∈ gs.map Prod.fst, ∃ q m', alookup smap q = some m' ∧ m'.id = k) →
      ∀ l, alookup gs (some cid) = some l →
      ((gs.filterMap (fun g =>
          match g.1 with
          | none => none
          | some c =>
              match alookup smap c with
              | none => none
              | some meta => some (processSensor meta g.2 w1 w2))).filter
        (fun su => decide (su.sensor_id = some cid))) =
        [processSensor meta l w1 w2] := by
  intro gs
  induction gs with
  | nil => intro _ _ l hl; simp [alookup] at hl
  | cons g rest ih =>
      intro hnd hgood l hl
      obtain ⟨k, gl⟩ := g
      have hnd1 : k ∉ rest.map Prod.fst ∧ (rest.map Prod.fst).Nodup := by
        rw [List.map_cons, List.nodup_cons] at hnd
        exact hnd
      by_cases hk : k = some cid
      · subst hk
        rw [alookup, if_pos rfl] at hl
        cases hl
        have hrestne : ∀ k' ∈ rest.map Prod.fst, k' ≠ some cid := by
          intro k' hk' heq
          exact hnd1.1 (heq ▸ hk')
        have hrest := summaries_filter_nil smap w1 w2 cid hsane rest hrestne
          (fun k' hk' => hgood k' (by simp [hk']))
        have hcc : (processSensor meta l w1 w2).sensor_id = some cid := by
          simp [processSensor, hmid]
        simp only [List.filterMap_cons]
        rw [hcid]
        simp [List.filter_cons, hcc, hrest]
      · rw [alookup, if_neg hk] at hl
        have ihr := ih hnd1.2 (fun k' hk' => hgood k' (by simp [hk'])) l hl
        cases k with
        | none => simpa [List.filterMap_cons] using ihr
        | some c =>
            obtain ⟨q, m', hq, hid⟩ := hgood (some c) (by simp)
            have hc : alookup smap c = some m' := hsane q c m' hq hid
            have hcc : ¬ ((processSensor m' gl w1 w2).sensor_id = some cid) := by
              simpa [processSensor, hid] using hk
            simp only [List.filterMap_cons]
            rw [hc]
            simp [List.filter_cons, hcc, ihr]

/-- C7: two activity rows that refer to the same physical sensor - one via
its canonical sensor id, one via its external device id - are grouped under
the one canonical sensor and produce exactly one `SensorSummary` entry,
computed from the single group that contains both rows (so their energy is
combined), never two entries.  `hsane` states that identifier resolution is
self-consistent: the canonical id of any resolvable sensor resolves back to
the same metadata, which holds for the map the code builds whenever distinct
sensors do not reuse each other's identifiers. -/
theorem sensor_dedup (sensors : List Sensor) (activities : List Activity)
    (w1 w2 : ℤ) (a1 a2 : Activity) (k1 k2 cid : String) (meta : SensorMeta)
    (ha1 : a1 ∈ activities) (ha2 : a2 ∈ activities)
    (hd1 : getDid a1 = some k1) (hd2 : getDid a2 = some k2)
    (hm1 : alookup (sensor_map sensors) k1 = some meta)
    (hm2 : alookup (sensor_map sensors) k2 = some meta)
    (hid : meta.id = some cid)
    (hsane : ∀ q q' m', alookup (sensor_map sensors) q = some m' →
      m'.id = some q' → alookup (sensor_map sensors) q' = some m') :
    ∃ l, alookup (by_canonical_id (sensor_map sensors) activities) (some cid) =
        some l ∧
      a1 ∈ l ∧ a2 ∈ l ∧
      ((compute_sensor_emissions sensors activities w1 w2).2.filter
          (fun su => decide (su.sensor_id = some cid))) =
        [processSensor meta l w1 w2] := by
  have hne : sensors ≠ [] := by
    intro h0
    subst h0
    simp [sensor_map, sensorMapGo, alookup] at hm1
  have hcid : alookup (sensor_map sensors) cid = some meta :=
    hsane k1 cid meta hm1 hid
  obtain ⟨l1, hl1, hmem1⟩ :=
    byCanonicalGo_mem (sensor_map sensors) activities [] a1 k1 meta ha1 hd1 hm1
  obtain ⟨l2, hl2, hmem2⟩ :=
    byCanonicalGo_mem (sensor_map sensors) activities [] a2 k2 meta ha2 hd2 hm2
  rw [hid] at hl1 hl2
  have hl12 : l2 = l1 := by
    rw [hl1] at hl2
    cases hl2
    rfl
  subst hl12
  have hnd : ((by_canonical_id (sensor_map sensors) activities).map Prod.fst).Nodup :=
    byCanonicalGo_nodup (sensor_map sensors) activities [] (by simp)
  have hgood := byCanonicalGo_goodkeys (sensor_map sensors) activities []
    (by intro k hk; simp at hk)
  have hfil := summaries_filter_unique (sensor_map sensors) w1 w2 cid meta hcid hid
    hsane (by_canonical_id (sensor_map sensors) activities) hnd hgood l2 hl1
  refine ⟨l2, hl1, hmem1, hmem2, ?_⟩
  unfold compute_sensor_emissions
  rw [if_neg hne]
  simp only []
  rw [computeGo_snd]
  simpa using hfil

/-- C7 witness: one sensor with canonical id "s1" and device id "d1", one
row keyed each way: one group holding both rows, one summary entry. -/
theorem sensor_dedup_witness :
    ∃ l, alookup (by_canonical_id (sensor_map [dedupSensor]) [dedupRow1, dedupRow2])
        (some "s1") = some l ∧
      dedupRow1 ∈ l ∧ dedupRow2 ∈ l ∧
      ((compute_sensor_emissions [dedupSensor] [dedupRow1, dedupRow2] 0 86400).2.filter
          (fun su => decide (su.sensor_id = some "s1"))) =
        [processSensor dedupMeta l 0 86400] := by
  have hmap : sensor_map [dedupSensor] = [("s1", dedupMeta), ("d1", dedupMeta)] := by
    with_unfolding_all decide
  apply sensor_dedup [dedupSensor] [dedupRow1, dedupRow2] 0 86400 dedupRow1 dedupRow2
    "s1" "d1" "s1" dedupMeta (by simp) (by simp)
    (by with_unfolding_all decide) (by with_unfolding_all decide)
    (by rw [hmap]; with_unfolding_all decide) (by rw [hmap]; with_unfolding_all decide)
    rfl
  intro q q' m' h1 h2
  rw [hmap] at h1
  have hm := alookup_mem h1
  rw [hmap]
  rcases List.mem_cons.mp hm with heq | hm2
  · cases heq
    have : some "s1" = some q' := h2
    cases this
    with_unfolding_all decide
  · rcases List.mem_cons.mp hm2 with heq | hm3
    · cases heq
      have : some "s1" = some q' := h2
      cases this
      with_unfolding_all decide
    · cases hm3

end Arise
